import Mathlib

/-!
Shallow embedding of the mec-connect billing/enrollment data layer
(src/lib/db/schema.ts, src/lib/operations/{enrollments,bills,students,
departments,bill-items}.ts) and proofs about its bulk transactional
operations.

Modelling conventions:
* The SQLite store is a `DB` record of row lists plus AUTOINCREMENT
  counters, one per table.
* Table names referenced by SQL strings in the source are modelled by the
  `TableName` enumeration; `createdTableNames` lists the tables actually
  created by `createTablesSQL` in src/lib/db/schema.ts.  A query naming a
  table outside this list fails with the SQLite "no such table" error, as
  it does at runtime (initDatabase runs exactly `createTablesSQL`).
* `initDatabase` also executes `PRAGMA foreign_keys = ON`
  (src/lib/db/init.ts), so inserts check the FOREIGN KEY
  constraints.
* `BEGIN TRANSACTION` / `COMMIT` / `ROLLBACK` around an operation body is
  modelled by threading a tentative `DB` through the body; the `catch`
  branch of the source (which issues `ROLLBACK` and rethrows) returns the
  original, pre-transaction `DB` together with the error.
* JavaScript `x || d` on numbers treats `0` as falsy; `x ?? d` only
  replaces `undefined`.  These are modelled by `jsOr` and `Option.getD`.
-/

namespace MecConnect

/-- Names of the tables referenced by any SQL statement in the modelled
operations.  Snake-case and camel-case variants are distinct names. -/
inductive TableName where
  | students
  | departments
  | student_departments
  | bill_items
  | bills
  | bill_item_relations
  | payments
  | studentDepartments
  | billItems
  | billItemRelations
  | student_department
deriving Repr, DecidableEq

/-- The tables created by `createTablesSQL` (src/lib/db/schema.ts): every
`CREATE TABLE IF NOT EXISTS` statement in that string. -/
def createdTableNames : List TableName :=
  [.students, .departments, .student_departments, .bill_items,
   .bills, .bill_item_relations, .payments]

/-- A table exists on a database initialized from `createTablesSQL` iff it
is one of the created tables. -/
def tableExists (t : TableName) : Bool :=
  createdTableNames.contains t

/-- A row of the `students` table. -/
structure StudentRow where
  id : Nat
  firstname : String
  othernames : String
  phone : String
  address : String
  status : String
  isActive : Bool
deriving Repr, DecidableEq

/-- A row of the `departments` table. -/
structure DepartmentRow where
  id : Nat
  name : String
  term : String
  year : String
  description : Option String
  startDate : Option String
  endDate : Option String
  isActive : Bool
deriving Repr, DecidableEq

/-- A row of the `student_departments` junction table. -/
structure StudentDepartmentRow where
  id : Nat
  studentId : Nat
  departmentId : Nat
  status : String
  isActive : Bool
deriving Repr, DecidableEq

/-- A row of the `bill_items` table. -/
structure BillItemRow where
  id : Nat
  name : String
  amount : Int
  departmentId : Nat
  description : Option String
  category : Option String
  isRequired : Option Bool
  isActive : Bool
deriving Repr, DecidableEq

/-- A row of the `bills` table.  `status` defaults to `"pending"` and
`discount` to `0` when the INSERT omits them (schema defaults). -/
structure BillRow where
  id : Nat
  name : String
  studentId : Nat
  departmentId : Nat
  totalAmount : Int
  dueDate : Option String
  status : String
  discount : Int
  note : Option String
  isActive : Bool
deriving Repr, DecidableEq

/-- A row of the `bill_item_relations` table. -/
structure BillItemRelationRow where
  id : Nat
  billId : Nat
  billItemId : Nat
  amount : Int
  quantity : Int
  discount : Int
  isActive : Bool
deriving Repr, DecidableEq

/-- The store: one list of rows per table (in insertion order) and one
AUTOINCREMENT counter per table. -/
structure DB where
  students : List StudentRow
  departments : List DepartmentRow
  studentDepartments : List StudentDepartmentRow
  billItems : List BillItemRow
  bills : List BillRow
  billItemRelations : List BillItemRelationRow
  nextStudentId : Nat
  nextDepartmentId : Nat
  nextStudentDepartmentId : Nat
  nextBillItemId : Nat
  nextBillId : Nat
  nextBillItemRelationId : Nat
deriving Repr, DecidableEq

/-- `SELECT * FROM students WHERE id = ?` via `getFirstAsync`. -/
def findStudent (db : DB) (id : Nat) : Option StudentRow :=
  db.students.find? (fun s => s.id == id)

/-- `SELECT * FROM departments WHERE id = ?` via `getFirstAsync`. -/
def findDepartment (db : DB) (id : Nat) : Option DepartmentRow :=
  db.departments.find? (fun d => d.id == id)

/-- `SELECT * FROM student_departments WHERE studentId = ? AND
departmentId = ?` via `getFirstAsync` — note no `isActive` filter. -/
def findEnrollment (db : DB) (studentId departmentId : Nat) :
    Option StudentDepartmentRow :=
  db.studentDepartments.find?
    (fun r => r.studentId == studentId && r.departmentId == departmentId)

/-- Lookup of a `bill_items` row by id. -/
def findBillItem (db : DB) (id : Nat) : Option BillItemRow :=
  db.billItems.find? (fun b => b.id == id)

/-- JavaScript `x || d` on an optional number: both `undefined` and the
falsy value `0` fall back to `d`. -/
def jsOr (x : Option Int) (d : Int) : Int :=
  match x with
  | none => d
  | some v => if v = 0 then d else v

/-- JavaScript `s || null` on an optional string: `undefined` and the
falsy value `""` become SQL NULL. -/
def jsOrNullStr (x : Option String) : Option String :=
  match x with
  | none => none
  | some s => if s = "" then none else some s

/-- One entry of the `errors` array of a bulk result. -/
structure EnrollError where
  studentId : Nat
  error : String
deriving Repr, DecidableEq

/-- `BulkEnrollmentResult` (src/lib/db/schema.ts). -/
structure BulkEnrollmentResult where
  successCount : Nat
  errors : List EnrollError
deriving Repr, DecidableEq

/-- `BulkBillResult` (src/lib/db/schema.ts). -/
structure BulkBillResult where
  billsCreated : Nat
  totalAmount : Int
  errors : List EnrollError
deriving Repr, DecidableEq

/-- One iteration of the `for (const studentId of studentIds)` loop of
`bulkEnroll` (src/lib/operations/enrollments.ts, lines 27-64).  The inner
`try/catch` records any per-student error and continues, so this step
never fails the whole call. -/
def bulkEnrollStep (departmentId : Nat) (acc : BulkEnrollmentResult × DB)
    (studentId : Nat) : BulkEnrollmentResult × DB :=
  let res := acc.1
  let db := acc.2
  if !tableExists .students then
    ({ res with errors := res.errors ++ [⟨studentId, "no such table: students"⟩] }, db)
  else
    match findStudent db studentId with
    | none =>
      ({ res with errors := res.errors ++ [⟨studentId, "Student not found"⟩] }, db)
    | some _ =>
      if !tableExists .student_departments then
        ({ res with errors := res.errors ++ [⟨studentId, "no such table: student_departments"⟩] }, db)
      else
        match findEnrollment db studentId departmentId with
        | some _ =>
          ({ res with errors := res.errors ++ [⟨studentId, "Already enrolled"⟩] }, db)
        | none =>
          let row : StudentDepartmentRow :=
            { id := db.nextStudentDepartmentId
              studentId := studentId
              departmentId := departmentId
              status := "active"
              isActive := true }
          ({ res with successCount := res.successCount + 1 },
           { db with
               studentDepartments := db.studentDepartments ++ [row]
               nextStudentDepartmentId := db.nextStudentDepartmentId + 1 })

/-- `bulkEnroll` (src/lib/operations/enrollments.ts).  Opens a
transaction, fails the whole call (rolling back) if the department does
not exist, otherwise processes each student id independently and
commits. -/
def bulkEnroll (db : DB) (departmentId : Nat) (studentIds : List Nat) :
    Except String BulkEnrollmentResult × DB :=
  if !tableExists .departments then
    (.error "no such table: departments", db)
  else
    match findDepartment db departmentId with
    | none =>
      (.error ("Department with ID " ++ toString departmentId ++ " not found"), db)
    | some _ =>
      let out := studentIds.foldl (bulkEnrollStep departmentId) (⟨0, []⟩, db)
      (.ok out.1, out.2)

/-- `unenrollStudent` (src/lib/operations/enrollments.ts): soft delete —
`UPDATE student_departments SET isActive = 0, status = "withdrawn" WHERE
studentId = ? AND departmentId = ?`; returns `changes > 0`. -/
def unenrollStudent (db : DB) (studentId departmentId : Nat) : Bool × DB :=
  if !tableExists .student_departments then
    (false, db)
  else
    let hit := fun (r : StudentDepartmentRow) =>
      r.studentId == studentId && r.departmentId == departmentId
    let updated := db.studentDepartments.map (fun r =>
      if hit r then { r with isActive := false, status := "withdrawn" } else r)
    (!(db.studentDepartments.filter hit).isEmpty,
     { db with studentDepartments := updated })

/-- One requested item of `createBillsForDepartment` (billItemId with
optional amount/quantity overrides). -/
structure BillRequestItem where
  billItemId : Nat
  amount : Option Int
  quantity : Option Int
deriving Repr, DecidableEq

/-- Amount/quantity resolution for one requested item inside the
per-student loop of `createBillsForDepartment` (src/lib/operations/
bills.ts, lines 58-78).  The source tests `item.amount !== undefined`
(strict, not falsy) and defaults quantity with `??`.  When no override is
given it reads the `billItems` table — a table name that `createTablesSQL`
never creates. -/
def resolveItem (db : DB) (item : BillRequestItem) :
    Except String (Nat × Int × Int) :=
  match item.amount with
  | some a => .ok (item.billItemId, a, item.quantity.getD 1)
  | none =>
    if !tableExists .billItems then .error "no such table: billItems"
    else
      match findBillItem db item.billItemId with
      | none =>
        .error ("BillItem with ID " ++ toString item.billItemId ++
                " not found or has no amount")
      | some bi => .ok (item.billItemId, bi.amount, item.quantity.getD 1)

/-- The inner `for (const item of billItems)` loop: accumulates
`studentTotal` and the `itemRelations` array, failing the student on the
first unresolvable item. -/
def resolveItems (db : DB) : List BillRequestItem →
    Except String (Int × List (Nat × Int × Int))
  | [] => .ok (0, [])
  | item :: rest =>
    match resolveItem db item with
    | .error e => .error e
    | .ok r =>
      match resolveItems db rest with
      | .error e => .error e
      | .ok (total, rels) => .ok (r.2.1 * r.2.2 + total, r :: rels)

/-- `INSERT INTO bills (name, studentId, departmentId, totalAmount,
status) VALUES (?, ?, ?, ?, ...)` with foreign-key checks
(`PRAGMA foreign_keys = ON`). -/
def insertBillRow (db : DB) (billName : String) (studentId departmentId : Nat)
    (total : Int) (dueDate note : Option String) : Except String (Nat × DB) :=
  if !tableExists .bills then .error "no such table: bills"
  else if (findStudent db studentId).isNone then
    .error "FOREIGN KEY constraint failed"
  else if (findDepartment db departmentId).isNone then
    .error "FOREIGN KEY constraint failed"
  else
    let row : BillRow :=
      { id := db.nextBillId
        name := billName
        studentId := studentId
        departmentId := departmentId
        totalAmount := total
        dueDate := dueDate
        status := "pending"
        discount := 0
        note := note
        isActive := true }
    .ok (db.nextBillId,
         { db with bills := db.bills ++ [row], nextBillId := db.nextBillId + 1 })

/-- The `for (const relation of itemRelations)` insert loop of
`createBillsForDepartment`: inserts into the (nonexistent) table
`billItemRelations`; on failure the rows inserted so far stay (there is no
per-student savepoint), so the error is returned with the current db. -/
def insertCamelRelations (billId : Nat) : List (Nat × Int × Int) → DB →
    Except (String × DB) DB
  | [], db => .ok db
  | _ :: rest, db =>
    if !tableExists .billItemRelations then
      .error ("no such table: billItemRelations", db)
    else
      -- dead branch on a schema-initialized store; kept for structure
      insertCamelRelations billId rest db

/-- The per-student body of `createBillsForDepartment` (src/lib/
operations/bills.ts, lines 44-106): the surrounding `try/catch` records
errors per student and keeps whatever was already inserted. -/
def processStudentBill (departmentId : Nat) (billItems : List BillRequestItem)
    (billName : String) (acc : BulkBillResult × DB) (student : StudentRow) :
    BulkBillResult × DB :=
  let res := acc.1
  let db := acc.2
  match resolveItems db billItems with
  | .error e => ({ res with errors := res.errors ++ [⟨student.id, e⟩] }, db)
  | .ok (studentTotal, rels) =>
    match insertBillRow db billName student.id departmentId studentTotal none none with
    | .error e => ({ res with errors := res.errors ++ [⟨student.id, e⟩] }, db)
    | .ok (billId, db1) =>
      match insertCamelRelations billId rels db1 with
      | .error (e, db2) =>
        ({ res with errors := res.errors ++ [⟨student.id, e⟩] }, db2)
      | .ok db2 =>
        ({ res with
             billsCreated := res.billsCreated + 1
             totalAmount := res.totalAmount + studentTotal }, db2)

/-- Students returned by the query `SELECT s.* FROM students s JOIN
studentDepartments sd ON s.id = sd.studentId WHERE sd.departmentId = ?
AND sd.isActive = 1` — were its tables to exist. -/
def enrolledStudents (db : DB) (departmentId : Nat) : List StudentRow :=
  db.students.filter (fun s => db.studentDepartments.any
    (fun sd => sd.studentId == s.id && sd.departmentId == departmentId && sd.isActive))

/-- `createBillsForDepartment` (src/lib/operations/bills.ts, lines 7-114).
The enrolled-students query joins the table name `studentDepartments`,
which `createTablesSQL` never creates (it creates `student_departments`),
so on a schema-initialized store the outer catch fires: ROLLBACK and
rethrow. -/
def createBillsForDepartment (db : DB) (departmentId : Nat)
    (billItems : List BillRequestItem) (billName : String) :
    Except String BulkBillResult × DB :=
  if !tableExists .departments then (.error "no such table: departments", db)
  else
    match findDepartment db departmentId with
    | none =>
      (.error ("Department with ID " ++ toString departmentId ++ " not found"), db)
    | some _ =>
      if !tableExists .students then (.error "no such table: students", db)
      else if !tableExists .studentDepartments then
        (.error "no such table: studentDepartments", db)
      else
        let out := (enrolledStudents db departmentId).foldl
          (processStudentBill departmentId billItems billName) (⟨0, 0, []⟩, db)
        (.ok out.1, out.2)

/-- One submitted item of `CreateBillWithItemsPayload`
(src/lib/db/schema.ts). -/
structure PayloadItem where
  billItemId : Nat
  amount : Option Int
  quantity : Option Int
  discount : Option Int
deriving Repr, DecidableEq

/-- `CreateBillWithItemsPayload` (src/lib/db/schema.ts). -/
structure CreateBillWithItemsPayload where
  studentId : Nat
  departmentId : Nat
  name : String
  dueDate : Option String
  note : Option String
  items : List PayloadItem
deriving Repr, DecidableEq

/-- The object returned by `createBillWithItems` (the source returns
`id, name, studentId, departmentId, totalAmount, dueDate, note`). -/
structure Bill where
  id : Nat
  name : String
  studentId : Nat
  departmentId : Nat
  totalAmount : Int
  dueDate : Option String
  note : Option String
deriving Repr, DecidableEq

/-- The `for (const item of bill.items)` loop of `createBillWithItems`
(src/lib/operations/bills.ts, lines 146-159): per item, default
`amount || 0`, `quantity || 1`, `discount || 0` (JS falsy), insert one
`bill_item_relations` row (FK on billItemId), and accumulate
`totalAmount += amount*quantity - discount`.  Any failure aborts the
whole loop. -/
def insertRelationRows (billId : Nat) : List PayloadItem → DB → Int →
    Except String (Int × DB)
  | [], db, total => .ok (total, db)
  | item :: rest, db, total =>
    if (findBillItem db item.billItemId).isNone then
      .error "FOREIGN KEY constraint failed"
    else
      let itemAmount := jsOr item.amount 0
      let quantity := jsOr item.quantity 1
      let discount := jsOr item.discount 0
      let row : BillItemRelationRow :=
        { id := db.nextBillItemRelationId
          billId := billId
          billItemId := item.billItemId
          amount := itemAmount
          quantity := quantity
          discount := discount
          isActive := true }
      insertRelationRows billId rest
        { db with
            billItemRelations := db.billItemRelations ++ [row]
            nextBillItemRelationId := db.nextBillItemRelationId + 1 }
        (total + (itemAmount * quantity - discount))

/-- `createBillWithItems` (src/lib/operations/bills.ts, lines 129-179).
One transaction: insert the bill with totalAmount 0, insert one relation
row per item, update the totalAmount of the bill, commit; on any error,
ROLLBACK (the original db is kept) and the error is rethrown. -/
def createBillWithItems (db : DB) (bill : CreateBillWithItemsPayload) :
    Except String Bill × DB :=
  if !tableExists .bills then (.error "no such table: bills", db)
  else if (findStudent db bill.studentId).isNone then
    (.error "FOREIGN KEY constraint failed", db)
  else if (findDepartment db bill.departmentId).isNone then
    (.error "FOREIGN KEY constraint failed", db)
  else
    let billId := db.nextBillId
    let row : BillRow :=
      { id := billId
        name := bill.name
        studentId := bill.studentId
        departmentId := bill.departmentId
        totalAmount := 0
        dueDate := jsOrNullStr bill.dueDate
        status := "pending"
        discount := 0
        note := jsOrNullStr bill.note
        isActive := true }
    let db1 : DB := { db with bills := db.bills ++ [row], nextBillId := billId + 1 }
    if !tableExists .bill_item_relations then
      (.error "no such table: bill_item_relations", db)
    else
      match insertRelationRows billId bill.items db1 0 with
      | .error e => (.error e, db)
      | .ok (total, db2) =>
        let db3 : DB := { db2 with bills := db2.bills.map (fun b =>
            if b.id == billId then { b with totalAmount := total } else b) }
        (.ok { id := billId
               name := bill.name
               studentId := bill.studentId
               departmentId := bill.departmentId
               totalAmount := total
               dueDate := bill.dueDate
               note := bill.note }, db3)

/-- A bill item as submitted to `createDepartment`/`updateDepartment`
(no id/departmentId; the operation supplies the department id). -/
structure NewBillItem where
  name : String
  amount : Int
  description : Option String
  category : Option String
  isRequired : Option Bool
deriving Repr, DecidableEq

/-- The argument of `updateDepartment`: a Department (optional id, as in
`BaseEntity`) plus an optional replacement billItems array. -/
structure UpdateDepartmentPayload where
  id : Option Nat
  name : String
  term : String
  year : String
  description : Option String
  startDate : Option String
  endDate : Option String
  billItems : Option (List NewBillItem)
deriving Repr, DecidableEq

/-- `addBillItem` (src/lib/operations/bill-items.ts): `INSERT INTO
bill_items (name, amount, departmentId, description, category,
isRequired)`, subject to the FK on departmentId. -/
def addBillItem (db : DB) (departmentId : Nat) (item : NewBillItem) :
    Except String (BillItemRow × DB) :=
  if !tableExists .bill_items then .error "no such table: bill_items"
  else if (findDepartment db departmentId).isNone then
    .error "FOREIGN KEY constraint failed"
  else
    let row : BillItemRow :=
      { id := db.nextBillItemId
        name := item.name
        amount := item.amount
        departmentId := departmentId
        description := item.description
        category := item.category
        isRequired := item.isRequired
        isActive := true }
    .ok (row, { db with
                  billItems := db.billItems ++ [row]
                  nextBillItemId := db.nextBillItemId + 1 })

/-- The `for (const item of department.billItems)` re-insert loop of
`updateDepartment`: each item goes through `addBillItem`; the first
failure aborts. -/
def addBillItemsLoop (departmentId : Nat) : List NewBillItem → DB →
    Except String DB
  | [], db => .ok db
  | item :: rest, db =>
    match addBillItem db departmentId item with
    | .error e => .error e
    | .ok r => addBillItemsLoop departmentId rest r.2

/-- `updateDepartment` (src/lib/operations/departments.ts, lines 322-373).
`if (!department.id)` is a JS falsy test, so a missing id and id 0 both
fail before the transaction opens.  Inside the transaction: update the
department row; if a billItems array was supplied, `DELETE FROM bill_items
WHERE departmentId = ?` (cascading to `bill_item_relations` rows of the
deleted items) and re-insert the supplied items; COMMIT.  Any error:
ROLLBACK (original db kept) and rethrow. -/
def updateDepartment (db : DB) (dep : UpdateDepartmentPayload) :
    Except String Unit × DB :=
  match dep.id with
  | none => (.error "Department ID is required for update", db)
  | some i =>
    if i = 0 then (.error "Department ID is required for update", db)
    else if !tableExists .departments then (.error "no such table: departments", db)
    else
      let db1 : DB := { db with departments := db.departments.map (fun d =>
          if d.id == i then
            { d with
                name := dep.name
                term := dep.term
                year := dep.year
                description := jsOrNullStr dep.description
                startDate := jsOrNullStr dep.startDate
                endDate := jsOrNullStr dep.endDate }
          else d) }
      match dep.billItems with
      | none => (.ok (), db1)
      | some items =>
        if !tableExists .bill_items then (.error "no such table: bill_items", db)
        else
          let removedIds := (db1.billItems.filter
            (fun b => b.departmentId == i)).map (fun b => b.id)
          let db2 : DB := { db1 with
              billItems := db1.billItems.filter (fun b => b.departmentId != i)
              billItemRelations := db1.billItemRelations.filter
                (fun r => !(removedIds.contains r.billItemId)) }
          match addBillItemsLoop i items db2 with
          | .error e => (.error e, db)
          | .ok db3 => (.ok (), db3)

/-- Pagination options (src/lib/db/schema.ts): plain JS numbers, so page
and pageSize may be zero or negative. -/
structure PaginationOptions where
  page : Int
  pageSize : Int
deriving Repr, DecidableEq

/-- `PaginatedResult<Student>` as produced by `searchStudents`.
`totalPages` is `Math.ceil(total / pageSize)`; `none` models the
non-finite JS number obtained when `pageSize = 0`. -/
structure PaginatedStudents where
  data : List StudentRow
  total : Nat
  page : Int
  pageSize : Int
  totalPages : Option Int
deriving Repr, DecidableEq

/-- `Math.ceil(total / pageSize)` for `pageSize ≠ 0`: the exact rational
ceiling, computed with floor division. -/
def mathCeilDiv (total : Nat) (pageSize : Int) : Int :=
  -(Int.fdiv (-(total : Int)) pageSize)

/-- `searchStudents` (src/lib/operations/students.ts, lines 116-205),
restricted to the fields the claims exercise: no text query or filters,
optional pagination, `includeInactive` defaulting to false at the call
sites.  There is no validation of `page`/`pageSize`; the SQL `LIMIT ?
OFFSET ?` semantics apply (a negative OFFSET reads as 0, a negative LIMIT
as unlimited, LIMIT 0 as zero rows). -/
def searchStudents (db : DB) (pagination : Option PaginationOptions)
    (includeInactive : Bool) : Except String PaginatedStudents :=
  if !tableExists .students then .error "no such table: students"
  else
    let rows := if includeInactive then db.students
                else db.students.filter (fun s => s.isActive)
    match pagination with
    | some p =>
      let offset : Int := (p.page - 1) * p.pageSize
      let afterOffset := rows.drop offset.toNat
      let data := if p.pageSize < 0 then afterOffset
                  else afterOffset.take p.pageSize.toNat
      .ok { data := data
            total := rows.length
            page := p.page
            pageSize := p.pageSize
            totalPages := if p.pageSize = 0 then none
                          else some (mathCeilDiv rows.length p.pageSize) }
    | none =>
      .ok { data := rows
            total := rows.length
            page := 1
            pageSize := rows.length
            totalPages := some 1 }

/-- `getStudentsInDepartmentById` (src/lib/operations/departments.ts,
lines 419-432): its query joins the table name `student_department`,
which `createTablesSQL` never creates (the junction table is
`student_departments`). -/
def getStudentsInDepartmentById (db : DB) (departmentId : Nat) :
    Except String (List StudentRow) :=
  if !tableExists .students then .error "no such table: students"
  else if !tableExists .student_department then
    .error "no such table: student_department"
  else
    .ok (db.students.filter (fun s => db.studentDepartments.any
      (fun sd => sd.studentId == s.id && sd.departmentId == departmentId)))

/-- An empty store fresh out of `initDatabase`. -/
def emptyDB : DB :=
  { students := []
    departments := []
    studentDepartments := []
    billItems := []
    bills := []
    billItemRelations := []
    nextStudentId := 1
    nextDepartmentId := 1
    nextStudentDepartmentId := 1
    nextBillItemId := 1
    nextBillId := 1
    nextBillItemRelationId := 1 }

/-- Department D (id 1). -/
def deptD : DepartmentRow :=
  { id := 1, name := "Department D", term := "Term1", year := "2025"
    description := none, startDate := none, endDate := none, isActive := true }

def studentA : StudentRow :=
  { id := 1, firstname := "Ama", othernames := "Mensah", phone := "0551"
    address := "Accra", status := "active", isActive := true }

def studentB : StudentRow :=
  { id := 2, firstname := "Kofi", othernames := "Owusu", phone := "0552"
    address := "Kumasi", status := "active", isActive := true }

def tuitionItem : BillItemRow :=
  { id := 1, name := "Tuition", amount := 100, departmentId := 1
    description := none, category := none, isRequired := none, isActive := true }

def booksItem : BillItemRow :=
  { id := 2, name := "Books", amount := 20, departmentId := 1
    description := none, category := none, isRequired := none, isActive := true }

/-- Store for the department-wide scenario: department D with bill items
Tuition (100) and Books (20), two students both actively enrolled. -/
def dbScenario : DB :=
  { emptyDB with
      students := [studentA, studentB]
      departments := [deptD]
      studentDepartments :=
        [{ id := 1, studentId := 1, departmentId := 1, status := "active", isActive := true },
         { id := 2, studentId := 2, departmentId := 1, status := "active", isActive := true }]
      billItems := [tuitionItem, booksItem]
      nextStudentId := 3
      nextDepartmentId := 2
      nextStudentDepartmentId := 3
      nextBillItemId := 3 }

/-- Store holding only department D: student ids are dangling. -/
def dbDeptOnly : DB := { emptyDB with departments := [deptD], nextDepartmentId := 2 }

/-- Scenario store in which only student 1 is enrolled; student 2 exists
but is not yet enrolled. -/
def dbPartiallyEnrolled : DB :=
  { dbScenario with
      studentDepartments :=
        [{ id := 1, studentId := 1, departmentId := 1, status := "active",
           isActive := true }]
      nextStudentDepartmentId := 2 }

/-- Store holding a single active student and nothing else. -/
def dbOneStudent : DB := { emptyDB with students := [studentA], nextStudentId := 2 }

/-- Whether an `Except` result is a success. -/
def exceptOk {α : Type} : Except String α → Bool
  | .ok _ => true
  | .error _ => false

/-- The caller-visible fields of a stored bill item (ignores the id and
isActive values the store assigns on insert). -/
def billItemFields (b : BillItemRow) :
    String × Int × Option String × Option String × Option Bool :=
  (b.name, b.amount, b.description, b.category, b.isRequired)

/-- The fields of a submitted bill item, in the same shape. -/
def newBillItemFields (it : NewBillItem) :
    String × Int × Option String × Option String × Option Bool :=
  (it.name, it.amount, it.description, it.category, it.isRequired)

/-- A replacement bill item used in the updateDepartment scenario. -/
def uniformItem : NewBillItem :=
  { name := "Uniform", amount := 30, description := none, category := none,
    isRequired := none }

/-- An updateDepartment argument replacing the bill items of department 1
with the single item `uniformItem`. -/
def depPayloadW : UpdateDepartmentPayload :=
  { id := some 1, name := "Department D", term := "Term1", year := "2025",
    description := none, startDate := none, endDate := none,
    billItems := some [uniformItem] }

/-! ## Theorems -/

/-- C10: `getStudentsInDepartmentById` joins the table name
`student_department`, which `createTablesSQL` never creates (the junction
table is `student_departments`), so for every department id on every
schema-initialized store the query fails with a "no such table" error and
the operation can never return a student list. -/
theorem getStudentsInDepartmentById_always_fails (db : DB) (departmentId : Nat) :
    getStudentsInDepartmentById db departmentId =
      .error "no such table: student_department" := rfl

/-- C1: on the scenario store (department D with bill items Tuition = 100
and Books = 20 and two actively enrolled students), the call
`createBillsForDepartment(D, [Tuition, Books], "Term1")` does not return
billsCreated = 2 with totalAmount = 240: its enrolled-students query joins
the nonexistent table `studentDepartments`, so the operation throws and
rolls back, leaving the store unchanged and creating no bills. -/
theorem createBillsForDepartment_scenario_throws :
    createBillsForDepartment dbScenario 1
        [{ billItemId := 1, amount := none, quantity := none },
         { billItemId := 2, amount := none, quantity := none }] "Term1" =
      (.error "no such table: studentDepartments", dbScenario) := rfl

/-- C8: `searchStudents` performs no pagination validation.  With
pageSize = 0 on a store holding one active student it silently returns an
ok result with no rows (and total = 1, so the result is ill-formed: no
page can ever reach the one matching row), and with page = 0 it silently
returns the first page again (the negative OFFSET reads as 0) — in
neither case does it fail with a ValidationError. -/
theorem searchStudents_zero_pagination_returns :
    searchStudents dbOneStudent
        (some { page := 1, pageSize := 0 }) false =
      .ok { data := [], total := 1, page := 1, pageSize := 0, totalPages := none } ∧
    searchStudents dbOneStudent
        (some { page := 0, pageSize := 5 }) false =
      .ok { data := [studentA], total := 1, page := 0, pageSize := 5,
            totalPages := some 1 } :=
  ⟨rfl, rfl⟩

/-- C2 counterexample: for the submitted item with amount 5, quantity 0
and discount 0, the formula of the claim (defaults applied only to
missing fields) gives 5 × 0 − 0 = 0, but the operation succeeds with
totalAmount 5, because the JavaScript `item.quantity || 1` coerces the
present-but-falsy quantity 0 to 1. -/
theorem createBillWithItems_claimed_formula_false :
    (createBillWithItems dbScenario
        { studentId := 1, departmentId := 1, name := "B", dueDate := none,
          note := none,
          items := [{ billItemId := 1, amount := some 5, quantity := some 0,
                      discount := some 0 }] }).1 =
      .ok { id := 1, name := "B", studentId := 1, departmentId := 1,
            totalAmount := 5, dueDate := none, note := none } ∧
    (([{ billItemId := 1, amount := some 5, quantity := some 0,
         discount := some 0 }] : List PayloadItem).map (fun it =>
        it.amount.getD 0 * it.quantity.getD 1 - it.discount.getD 0)).sum ≠ 5 :=
  ⟨rfl, by decide⟩

/-- C4 counterexample: with the duplicate input [9, 9] where student 9
does not exist, the call returns successCount = 0 and two error entries
for the single distinct student id 9, so successCount plus the number of
distinct studentIds having an error entry is 1, not the input length 2. -/
theorem bulkEnroll_distinct_disposition_false :
    (bulkEnroll dbDeptOnly 1 [9, 9]).1 =
      .ok { successCount := 0
            errors := [{ studentId := 9, error := "Student not found" },
                       { studentId := 9, error := "Student not found" }] } ∧
    (0 : Nat) +
      (([{ studentId := 9, error := "Student not found" },
         { studentId := 9, error := "Student not found" }] : List EnrollError).map
        (fun e => e.studentId)).dedup.length ≠ ([9, 9] : List Nat).length :=
  ⟨rfl, by decide⟩

/-- C5 counterexample: if student 9 does not exist, a second identical
`bulkEnroll` call reports "Student not found" for id 9 again, not
"Already enrolled" — the claim requires an "Already enrolled" entry for
every id in studentIds. -/
theorem bulkEnroll_second_call_not_always_already_enrolled :
    (bulkEnroll (bulkEnroll dbDeptOnly 1 [9]).2 1 [9]).1 =
      .ok { successCount := 0
            errors := [{ studentId := 9, error := "Student not found" }] } ∧
    ¬ (∀ e ∈ ([{ studentId := 9, error := "Student not found" }] : List EnrollError),
         e.error = "Already enrolled") :=
  ⟨rfl, by decide⟩

/-- Each loop iteration of `bulkEnroll` produces exactly one disposition:
either successCount grows by one or exactly one error entry is pushed. -/
theorem bulkEnrollStep_disposition (departmentId : Nat)
    (acc : BulkEnrollmentResult × DB) (sid : Nat) :
    (bulkEnrollStep departmentId acc sid).1.successCount +
      (bulkEnrollStep departmentId acc sid).1.errors.length =
    acc.1.successCount + acc.1.errors.length + 1 := by
  simp only [bulkEnrollStep]
  split
  · simp
    omega
  · split
    · simp
      omega
    · split
      · simp
        omega
      · split
        · simp
          omega
        · simp
          omega

/-- Disposition count over the whole loop of `bulkEnroll`. -/
theorem bulkEnroll_fold_disposition (departmentId : Nat) (ids : List Nat) :
    ∀ acc : BulkEnrollmentResult × DB,
      (ids.foldl (bulkEnrollStep departmentId) acc).1.successCount +
        (ids.foldl (bulkEnrollStep departmentId) acc).1.errors.length =
      acc.1.successCount + acc.1.errors.length + ids.length := by
  induction ids with
  | nil => intro acc; simp
  | cons x xs ih =>
    intro acc
    simp only [List.foldl_cons, List.length_cons]
    rw [ih]
    have h := bulkEnrollStep_disposition departmentId acc x
    omega

/-- When `bulkEnroll` returns a result, each input id yielded exactly one
disposition: successCount plus the number of error entries equals the
input length. -/
theorem bulkEnroll_ok_disposition (db : DB) (departmentId : Nat)
    (studentIds : List Nat) (r : BulkEnrollmentResult)
    (h : (bulkEnroll db departmentId studentIds).1 = .ok r) :
    r.successCount + r.errors.length = studentIds.length := by
  simp only [bulkEnroll] at h
  split at h
  · simp at h
  · split at h
    · simp at h
    · simp only at h
      injection h with h
      subst h
      simpa using bulkEnroll_fold_disposition departmentId studentIds
        ({ successCount := 0, errors := [] }, db)

/-- C4 (amended): for every `bulkEnroll` call that returns a result,
successCount plus the number of error entries (one entry per occurrence
of an input id, so duplicate ids count once per occurrence) equals the
length of the studentIds input list. -/
theorem bulkEnroll_dispositions (db : DB) (departmentId : Nat)
    (studentIds : List Nat) (r : BulkEnrollmentResult)
    (h : (bulkEnroll db departmentId studentIds).1 = .ok r) :
    r.successCount + r.errors.length = studentIds.length :=
  bulkEnroll_ok_disposition db departmentId studentIds r h

/-- Closed instance of C4 (amended) at the duplicate-input store. -/
theorem bulkEnroll_dispositions_witness :
    (0 : Nat) + 2 = ([9, 9] : List Nat).length :=
  bulkEnroll_dispositions dbDeptOnly 1 [9, 9]
    { successCount := 0
      errors := [{ studentId := 9, error := "Student not found" },
                 { studentId := 9, error := "Student not found" }] } rfl

/-- C6: `bulkEnroll` surfaces a thrown error exactly when the department
does not exist (the model has no other storage-level failures); in that
case the transaction is rolled back (the store is returned unchanged).
In every other case it returns an ok result object, and no per-student
error aborts processing: every input id still receives its disposition. -/
theorem bulkEnroll_error_iff (db : DB) (departmentId : Nat)
    (studentIds : List Nat) :
    (exceptOk (bulkEnroll db departmentId studentIds).1 =
       (findDepartment db departmentId).isSome) ∧
    ((findDepartment db departmentId).isNone →
       bulkEnroll db departmentId studentIds =
         (.error ("Department with ID " ++ toString departmentId ++ " not found"),
          db)) ∧
    (∀ r, (bulkEnroll db departmentId studentIds).1 = .ok r →
       r.successCount + r.errors.length = studentIds.length) := by
  have ht : tableExists TableName.departments = true := rfl
  refine ⟨?_, ?_, fun r h => bulkEnroll_ok_disposition db departmentId studentIds r h⟩
  · simp only [bulkEnroll]
    cases h : findDepartment db departmentId <;> simp [exceptOk, h, ht]
  · intro h
    simp only [bulkEnroll]
    cases hd : findDepartment db departmentId
    · simp [ht]
    · rw [hd] at h
      simp at h

/-- Closed instance of C6: a missing department makes the call throw with
the store unchanged, while on an existing department the call returns a
result with one disposition per input id. -/
theorem bulkEnroll_error_iff_witness :
    bulkEnroll emptyDB 1 [] =
      (.error ("Department with ID " ++ toString 1 ++ " not found"), emptyDB) ∧
    (0 : Nat) + 2 = ([9, 9] : List Nat).length := by
  have h1 := bulkEnroll_error_iff emptyDB 1 []
  have h2 := bulkEnroll_error_iff dbDeptOnly 1 [9, 9]
  exact ⟨h1.2.1 rfl,
         h2.2.2 { successCount := 0
                  errors := [{ studentId := 9, error := "Student not found" },
                             { studentId := 9, error := "Student not found" }] } rfl⟩

theorem tableExists_students : tableExists TableName.students = true := rfl

theorem tableExists_departments : tableExists TableName.departments = true := rfl

theorem tableExists_student_departments :
    tableExists TableName.student_departments = true := rfl

/-- An enrollment row is found exactly when a row with the two ids is in
the junction table (any status, any isActive value). -/
theorem findEnrollment_isSome_iff (db : DB) (s d : Nat) :
    (findEnrollment db s d).isSome = true ↔
      ∃ r ∈ db.studentDepartments, r.studentId = s ∧ r.departmentId = d := by
  simp [findEnrollment, List.find?_isSome]

theorem findStudent_eq_of_students (dbA dbB : DB)
    (h : dbA.students = dbB.students) (s : Nat) :
    findStudent dbA s = findStudent dbB s := by
  simp [findStudent, h]

theorem findDepartment_eq_of_departments (dbA dbB : DB)
    (h : dbA.departments = dbB.departments) (d : Nat) :
    findDepartment dbA d = findDepartment dbB d := by
  simp [findDepartment, h]

/-- The enrollment loop never touches the students or departments
tables. -/
theorem bulkEnrollStep_preserves (departmentId : Nat)
    (acc : BulkEnrollmentResult × DB) (sid : Nat) :
    (bulkEnrollStep departmentId acc sid).2.students = acc.2.students ∧
    (bulkEnrollStep departmentId acc sid).2.departments = acc.2.departments := by
  simp only [bulkEnrollStep]
  split
  · exact ⟨rfl, rfl⟩
  · split
    · exact ⟨rfl, rfl⟩
    · split
      · exact ⟨rfl, rfl⟩
      · split
        · exact ⟨rfl, rfl⟩
        · exact ⟨rfl, rfl⟩

theorem bulkEnroll_fold_preserves (departmentId : Nat) (ids : List Nat) :
    ∀ acc : BulkEnrollmentResult × DB,
      (ids.foldl (bulkEnrollStep departmentId) acc).2.students = acc.2.students ∧
      (ids.foldl (bulkEnrollStep departmentId) acc).2.departments = acc.2.departments := by
  induction ids with
  | nil => intro acc; exact ⟨rfl, rfl⟩
  | cons x xs ih =>
    intro acc
    have h1 := bulkEnrollStep_preserves departmentId acc x
    have h2 := ih (bulkEnrollStep departmentId acc x)
    exact ⟨h2.1.trans h1.1, h2.2.trans h1.2⟩

/-- Enrollment rows are never removed by the loop. -/
theorem bulkEnrollStep_enroll_mono (departmentId : Nat)
    (acc : BulkEnrollmentResult × DB) (sid s d : Nat)
    (h : (findEnrollment acc.2 s d).isSome = true) :
    (findEnrollment (bulkEnrollStep departmentId acc sid).2 s d).isSome = true := by
  simp only [bulkEnrollStep]
  split
  · exact h
  · split
    · exact h
    · split
      · exact h
      · split
        · exact h
        · rw [findEnrollment_isSome_iff] at h ⊢
          obtain ⟨r, hr, hs⟩ := h
          exact ⟨r, by simpa using Or.inl hr, hs⟩

theorem bulkEnroll_fold_enroll_mono (departmentId : Nat) (ids : List Nat) :
    ∀ (acc : BulkEnrollmentResult × DB) (s d : Nat),
      (findEnrollment acc.2 s d).isSome = true →
      (findEnrollment (ids.foldl (bulkEnrollStep departmentId) acc).2 s d).isSome = true := by
  induction ids with
  | nil => intro acc s d h; exact h
  | cons x xs ih =>
    intro acc s d h
    exact ih _ s d (bulkEnrollStep_enroll_mono departmentId acc x s d h)

/-- After processing an existing student, an enrollment row for that
student and the department is present (it either already existed or was
just inserted). -/
theorem bulkEnrollStep_enrolls_self (departmentId : Nat)
    (acc : BulkEnrollmentResult × DB) (sid : Nat)
    (hstu : (findStudent acc.2 sid).isSome = true) :
    (findEnrollment (bulkEnrollStep departmentId acc sid).2 sid departmentId).isSome = true := by
  simp only [bulkEnrollStep]
  split
  · next hcontra => simp [tableExists_students] at hcontra
  · split
    · next heq => rw [heq] at hstu; simp at hstu
    · split
      · next hcontra => simp [tableExists_student_departments] at hcontra
      · split
        · next v heq => rw [heq]; rfl
        · rw [findEnrollment_isSome_iff]
          exact ⟨_, List.mem_append_right _ (List.mem_singleton_self _), rfl, rfl⟩

/-- After the enrollment loop, every processed existing student has an
enrollment row for the department. -/
theorem bulkEnroll_fold_enrolls (departmentId : Nat) (ids : List Nat) :
    ∀ acc : BulkEnrollmentResult × DB,
      (∀ s ∈ ids, (findStudent acc.2 s).isSome = true) →
      ∀ s ∈ ids,
        (findEnrollment (ids.foldl (bulkEnrollStep departmentId) acc).2
          s departmentId).isSome = true := by
  induction ids with
  | nil => intro acc _ s hs; cases hs
  | cons x xs ih =>
    intro acc h s hs
    rw [List.foldl_cons]
    rcases List.mem_cons.mp hs with h1 | hmem
    · subst h1
      exact bulkEnroll_fold_enroll_mono departmentId xs _ s departmentId
        (bulkEnrollStep_enrolls_self departmentId acc s (h s (List.mem_cons_self _ _)))
    · refine ih (bulkEnrollStep departmentId acc x) ?_ s hmem
      intro t ht
      have hp := (bulkEnrollStep_preserves departmentId acc x).1
      rw [findStudent_eq_of_students _ _ hp t]
      exact h t (List.mem_cons_of_mem x ht)

/-- When every processed id already has an enrollment row and refers to
an existing student, the loop records one "Already enrolled" error per
occurrence and leaves the store untouched. -/
theorem bulkEnroll_fold_all_enrolled (departmentId : Nat) (ids : List Nat) :
    ∀ (res : BulkEnrollmentResult) (db : DB),
      (∀ s ∈ ids, (findStudent db s).isSome = true ∧
                  (findEnrollment db s departmentId).isSome = true) →
      ids.foldl (bulkEnrollStep departmentId) (res, db) =
        ({ res with errors := res.errors ++
             ids.map (fun s => ⟨s, "Already enrolled"⟩) }, db) := by
  induction ids with
  | nil => intro res db _; simp
  | cons x xs ih =>
    intro res db h
    obtain ⟨hs, he⟩ := h x (List.mem_cons_self x xs)
    obtain ⟨v, hv⟩ := Option.isSome_iff_exists.mp hs
    obtain ⟨w, hw⟩ := Option.isSome_iff_exists.mp he
    have hstep : bulkEnrollStep departmentId (res, db) x =
        ({ res with errors := res.errors ++ [⟨x, "Already enrolled"⟩] }, db) := by
      simp [bulkEnrollStep, tableExists_students, tableExists_student_departments,
            hv, hw]
    rw [List.foldl_cons, hstep,
        ih _ db (fun s hsx => h s (List.mem_cons_of_mem x hsx))]
    simp

/-- C5 (amended): when every id in studentIds refers to an existing
student, calling bulkEnroll a second time with the same (departmentId,
studentIds) as an immediately preceding successful call yields
successCount = 0 and an "Already enrolled" error entry for every id in
studentIds (one per occurrence, in input order), leaving the store
unchanged. -/
theorem bulkEnroll_repeat (db : DB) (departmentId : Nat) (studentIds : List Nat)
    (hstu : ∀ s ∈ studentIds, (findStudent db s).isSome = true)
    (r₁ : BulkEnrollmentResult) (db₂ : DB)
    (h₁ : bulkEnroll db departmentId studentIds = (.ok r₁, db₂)) :
    bulkEnroll db₂ departmentId studentIds =
      (.ok { successCount := 0
             errors := studentIds.map (fun s => ⟨s, "Already enrolled"⟩) }, db₂) := by
  simp only [bulkEnroll, tableExists_departments, Bool.not_true] at h₁ ⊢
  cases hd : findDepartment db departmentId with
  | none => rw [hd] at h₁; simp at h₁
  | some d =>
    rw [hd] at h₁
    simp only [Bool.false_eq_true, if_false, Prod.mk.injEq] at h₁
    obtain ⟨h₁a, h₁b⟩ := h₁
    have hpres := bulkEnroll_fold_preserves departmentId studentIds
      ({ successCount := 0, errors := [] }, db)
    have hstumono : ∀ s ∈ studentIds, (findStudent db₂ s).isSome = true := by
      intro s hs
      rw [← h₁b, findStudent_eq_of_students _ _ hpres.1 s]
      exact hstu s hs
    have henr : ∀ s ∈ studentIds,
        (findEnrollment db₂ s departmentId).isSome = true := by
      intro s hs
      rw [← h₁b]
      exact bulkEnroll_fold_enrolls departmentId studentIds
        ({ successCount := 0, errors := [] }, db) hstu s hs
    have hdept₂ : findDepartment db₂ departmentId = some d := by
      rw [← h₁b, findDepartment_eq_of_departments _ _ hpres.2 departmentId]
      exact hd
    rw [hdept₂]
    simp only [Bool.false_eq_true, if_false]
    rw [bulkEnroll_fold_all_enrolled departmentId studentIds
      { successCount := 0, errors := [] } db₂
      (fun s hs => ⟨hstumono s hs, henr s hs⟩)]
    simp

/-- Closed instance of C5 (amended): on a store where students 1 and 2
exist and student 1 is already enrolled, a first call enrolls student 2;
the repeated call reports "Already enrolled" for both ids with
successCount 0 and does not change the store. -/
theorem bulkEnroll_repeat_witness :
    bulkEnroll (bulkEnroll dbPartiallyEnrolled 1 [1, 2]).2 1 [1, 2] =
      (.ok { successCount := 0
             errors := [{ studentId := 1, error := "Already enrolled" },
                        { studentId := 2, error := "Already enrolled" }] },
       (bulkEnroll dbPartiallyEnrolled 1 [1, 2]).2) :=
  bulkEnroll_repeat dbPartiallyEnrolled 1 [1, 2] (by decide)
    { successCount := 1, errors := [{ studentId := 1, error := "Already enrolled" }] }
    (bulkEnroll dbPartiallyEnrolled 1 [1, 2]).2 rfl

/-- Unfolding of the soft-delete update of `unenrollStudent`. -/
theorem unenrollStudent_snd (db : DB) (s d : Nat) :
    (unenrollStudent db s d).2 =
      { db with studentDepartments := db.studentDepartments.map (fun r =>
          if r.studentId == s && r.departmentId == d then
            { r with isActive := false, status := "withdrawn" } else r) } := rfl

/-- C9: the already-enrolled check of `bulkEnroll` matches any existing
junction row regardless of isActive or status.  After a withdrawal via
`unenrollStudent` (which keeps the row with isActive = false and status
"withdrawn"), re-enrolling the student reports "Already enrolled", does
not insert a new row and does not reactivate the old one: the store is
returned unchanged and every matching row still carries isActive = false
and status "withdrawn". -/
theorem bulkEnroll_after_unenroll (db : DB) (s departmentId : Nat)
    (hdept : (findDepartment db departmentId).isSome = true)
    (hstu : (findStudent db s).isSome = true)
    (henr : (findEnrollment db s departmentId).isSome = true) :
    bulkEnroll (unenrollStudent db s departmentId).2 departmentId [s] =
      (.ok { successCount := 0
             errors := [{ studentId := s, error := "Already enrolled" }] },
       (unenrollStudent db s departmentId).2) ∧
    (∀ r ∈ (unenrollStudent db s departmentId).2.studentDepartments,
       r.studentId = s → r.departmentId = departmentId →
         r.isActive = false ∧ r.status = "withdrawn") := by
  have hstu₂ : (findStudent (unenrollStudent db s departmentId).2 s).isSome = true := by
    rw [findStudent_eq_of_students _ db (by rw [unenrollStudent_snd]) s]
    exact hstu
  have henr₂ : (findEnrollment (unenrollStudent db s departmentId).2
      s departmentId).isSome = true := by
    rw [findEnrollment_isSome_iff] at henr
    obtain ⟨r, hr, hr1, hr2⟩ := henr
    have hhit : (r.studentId == s && r.departmentId == departmentId) = true := by
      simp [hr1, hr2]
    refine (findEnrollment_isSome_iff _ _ _).mpr
      ⟨{ r with isActive := false, status := "withdrawn" }, ?_, hr1, hr2⟩
    rw [unenrollStudent_snd]
    have hmem := List.mem_map_of_mem (fun r : StudentDepartmentRow =>
      if r.studentId == s && r.departmentId == departmentId then
        { r with isActive := false, status := "withdrawn" } else r) hr
    simpa [hhit] using hmem
  obtain ⟨dv, hdv⟩ := Option.isSome_iff_exists.mp hdept
  have hdept₂ : findDepartment (unenrollStudent db s departmentId).2
      departmentId = some dv := by
    rw [findDepartment_eq_of_departments _ db
      (by rw [unenrollStudent_snd]) departmentId]
    exact hdv
  constructor
  · simp only [bulkEnroll, tableExists_departments, Bool.not_true]
    rw [hdept₂]
    simp only [Bool.false_eq_true, if_false]
    rw [bulkEnroll_fold_all_enrolled departmentId [s]
      { successCount := 0, errors := [] } (unenrollStudent db s departmentId).2 ?_]
    · simp
    · intro t ht
      rw [List.mem_singleton] at ht
      subst ht
      exact ⟨hstu₂, henr₂⟩
  · intro r hr hrs hrd
    rw [unenrollStudent_snd] at hr
    simp only [List.mem_map] at hr
    obtain ⟨r₀, hr₀, himg⟩ := hr
    by_cases hcase : (r₀.studentId == s && r₀.departmentId == departmentId) = true
    · rw [if_pos hcase] at himg
      rw [← himg]
      exact ⟨rfl, rfl⟩
    · rw [if_neg hcase] at himg
      subst himg
      rw [hrs, hrd] at hcase
      simp at hcase

/-- Closed instance of C9 on the scenario store: withdraw student 1 from
department 1, then bulk-enroll [1] again. -/
theorem bulkEnroll_after_unenroll_witness :
    bulkEnroll (unenrollStudent dbScenario 1 1).2 1 [1] =
      (.ok { successCount := 0
             errors := [{ studentId := 1, error := "Already enrolled" }] },
       (unenrollStudent dbScenario 1 1).2) :=
  (bulkEnroll_after_unenroll dbScenario 1 1 rfl rfl rfl).1

theorem tableExists_bills : tableExists TableName.bills = true := rfl

theorem tableExists_bill_item_relations :
    tableExists TableName.bill_item_relations = true := rfl

theorem tableExists_bill_items : tableExists TableName.bill_items = true := rfl

/-- A successful relation-insert loop accumulates exactly the per-item
formula on top of its accumulator and never touches the bills or
bill_items tables. -/
theorem insertRelationRows_spec (billId : Nat) :
    ∀ (items : List PayloadItem) (db : DB) (tot total : Int) (db₂ : DB),
      insertRelationRows billId items db tot = .ok (total, db₂) →
      total = tot + (items.map (fun it =>
        jsOr it.amount 0 * jsOr it.quantity 1 - jsOr it.discount 0)).sum ∧
      db₂.bills = db.bills ∧ db₂.billItems = db.billItems := by
  intro items
  induction items with
  | nil =>
    intro db tot total db₂ h
    simp only [insertRelationRows] at h
    injection h with h
    injection h with h1 h2
    subst h1
    subst h2
    simp
  | cons item rest ih =>
    intro db tot total db₂ h
    simp only [insertRelationRows] at h
    split at h
    · exact absurd h (by simp)
    · obtain ⟨h1, h2, h3⟩ := ih _ _ _ _ h
      refine ⟨?_, by rw [h2], by rw [h3]⟩
      rw [h1]
      simp only [List.map_cons, List.sum_cons]
      rw [add_assoc]

/-- If some submitted item references a bill item id that is not in the
bill_items table, the relation-insert loop fails with the foreign-key
error (the loop itself only ever appends relation rows, so lookups are
unaffected by earlier iterations). -/
theorem insertRelationRows_fails (billId : Nat) :
    ∀ (items : List PayloadItem) (db : DB) (tot : Int),
      (∃ it ∈ items, findBillItem db it.billItemId = none) →
      insertRelationRows billId items db tot =
        .error "FOREIGN KEY constraint failed" := by
  intro items
  induction items with
  | nil =>
    intro db tot h
    obtain ⟨it, hit, _⟩ := h
    cases hit
  | cons item rest ih =>
    intro db tot h
    simp only [insertRelationRows]
    by_cases hfk : (findBillItem db item.billItemId).isNone = true
    · rw [if_pos hfk]
    · rw [if_neg hfk]
      obtain ⟨it, hit, hnone⟩ := h
      rcases List.mem_cons.mp hit with h1 | hrest
      · subst h1
        rw [hnone] at hfk
        simp at hfk
      · exact ih _ _ ⟨it, hrest, hnone⟩

/-- C2 (amended): for every successful `createBillWithItems` call, the
returned totalAmount — and the totalAmount of the persisted bill row —
equals the sum over the submitted items of amount × quantity − discount,
where amount defaults to 0 and discount to 0 when missing or zero, and
quantity defaults to 1 both when missing and when submitted as 0 (the
JavaScript falsy coercion `quantity || 1`).  The formula reads only the
submitted payload: stored BillItem amounts are never looked up. -/
theorem createBillWithItems_totalAmount (db : DB)
    (bill : CreateBillWithItemsPayload) (b : Bill) (db₂ : DB)
    (h : createBillWithItems db bill = (.ok b, db₂)) :
    b.totalAmount = (bill.items.map (fun it =>
      jsOr it.amount 0 * jsOr it.quantity 1 - jsOr it.discount 0)).sum ∧
    ∃ row ∈ db₂.bills, row.id = b.id ∧ row.totalAmount = b.totalAmount := by
  simp only [createBillWithItems] at h
  split at h
  · simp at h
  · split at h
    · simp at h
    · split at h
      · simp at h
      · split at h
        · simp at h
        · split at h
          · simp at h
          · next total db₃ hrel =>
            rw [Prod.mk.injEq] at h
            obtain ⟨hb, hdb⟩ := h
            injection hb with hb
            obtain ⟨h1, h2, h3⟩ := insertRelationRows_spec _ _ _ _ _ _ hrel
            subst hb
            constructor
            · simpa using h1
            · rw [← hdb]
              have hbills : db₃.bills = db.bills ++
                  [{ id := db.nextBillId, name := bill.name,
                     studentId := bill.studentId, departmentId := bill.departmentId,
                     totalAmount := 0, dueDate := jsOrNullStr bill.dueDate,
                     status := "pending", discount := 0,
                     note := jsOrNullStr bill.note, isActive := true }] := by
                simpa using h2
              have hmem : ({ id := db.nextBillId, name := bill.name,
                             studentId := bill.studentId,
                             departmentId := bill.departmentId,
                             totalAmount := total,
                             dueDate := jsOrNullStr bill.dueDate,
                             status := "pending", discount := 0,
                             note := jsOrNullStr bill.note,
                             isActive := true } : BillRow) ∈
                  db₃.bills.map (fun bb : BillRow =>
                    if bb.id == db.nextBillId then
                      { bb with totalAmount := total } else bb) := by
                rw [hbills, List.map_append]
                refine List.mem_append_right _ ?_
                simp
              exact ⟨_, hmem, rfl, rfl⟩

/-- Closed instance of C2 (amended): one item with amount 100, quantity 2
and discount 5 yields totalAmount 195, both in the returned bill and in
the persisted row. -/
theorem createBillWithItems_totalAmount_witness :
    (195 : Int) = (([{ billItemId := 1, amount := some 100, quantity := some 2,
                       discount := some 5 }] : List PayloadItem).map (fun it =>
        jsOr it.amount 0 * jsOr it.quantity 1 - jsOr it.discount 0)).sum ∧
    ∃ row ∈ (createBillWithItems dbScenario
        { studentId := 1, departmentId := 1, name := "B", dueDate := none,
          note := none,
          items := [{ billItemId := 1, amount := some 100, quantity := some 2,
                      discount := some 5 }] }).2.bills,
      row.id = 1 ∧ row.totalAmount = (195 : Int) :=
  createBillWithItems_totalAmount dbScenario
    { studentId := 1, departmentId := 1, name := "B", dueDate := none,
      note := none,
      items := [{ billItemId := 1, amount := some 100, quantity := some 2,
                  discount := some 5 }] }
    { id := 1, name := "B", studentId := 1, departmentId := 1,
      totalAmount := 195, dueDate := none, note := none }
    (createBillWithItems dbScenario
      { studentId := 1, departmentId := 1, name := "B", dueDate := none,
        note := none,
        items := [{ billItemId := 1, amount := some 100, quantity := some 2,
                    discount := some 5 }] }).2 rfl

/-- C3: any failure inside `createBillWithItems` rolls the transaction
back — the store is returned exactly as it was, with no bill row and no
relation row persisted — and the error is rethrown.  In particular, when
the student and department exist but some submitted item references a
bill item id that does not exist, the foreign-key constraint rejects the
item insert and the whole call fails with the store unchanged. -/
theorem createBillWithItems_rollback (db : DB) (bill : CreateBillWithItemsPayload) :
    (∀ e db₂, createBillWithItems db bill = (.error e, db₂) → db₂ = db) ∧
    ((findStudent db bill.studentId).isSome = true →
     (findDepartment db bill.departmentId).isSome = true →
     (∃ it ∈ bill.items, findBillItem db it.billItemId = none) →
     createBillWithItems db bill =
       (.error "FOREIGN KEY constraint failed", db)) := by
  constructor
  · intro e db₂ h
    simp only [createBillWithItems] at h
    split at h
    · rw [Prod.mk.injEq] at h; exact h.2.symm
    · split at h
      · rw [Prod.mk.injEq] at h; exact h.2.symm
      · split at h
        · rw [Prod.mk.injEq] at h; exact h.2.symm
        · split at h
          · rw [Prod.mk.injEq] at h; exact h.2.symm
          · split at h
            · rw [Prod.mk.injEq] at h; exact h.2.symm
            · rw [Prod.mk.injEq] at h
              exact absurd h.1 (by simp)
  · intro hstu hdept hex
    obtain ⟨sv, hsv⟩ := Option.isSome_iff_exists.mp hstu
    obtain ⟨dv, hdv⟩ := Option.isSome_iff_exists.mp hdept
    have hrel : insertRelationRows db.nextBillId bill.items
        { db with
            bills := db.bills ++
              [{ id := db.nextBillId, name := bill.name,
                 studentId := bill.studentId, departmentId := bill.departmentId,
                 totalAmount := 0, dueDate := jsOrNullStr bill.dueDate,
                 status := "pending", discount := 0,
                 note := jsOrNullStr bill.note, isActive := true }]
            nextBillId := db.nextBillId + 1 } 0 =
        .error "FOREIGN KEY constraint failed" :=
      insertRelationRows_fails db.nextBillId bill.items _ 0 hex
    simp only [createBillWithItems, tableExists_bills, tableExists_bill_item_relations,
      Bool.not_true, Bool.false_eq_true, if_false, hsv, hdv, Option.isNone_some,
      hrel]

/-- Closed instance of C3: an item referencing the nonexistent bill item
id 99 makes the call fail and leaves the scenario store unchanged. -/
theorem createBillWithItems_rollback_witness :
    createBillWithItems dbScenario
        { studentId := 1, departmentId := 1, name := "B", dueDate := none,
          note := none,
          items := [{ billItemId := 99, amount := none, quantity := none,
                      discount := none }] } =
      (.error "FOREIGN KEY constraint failed", dbScenario) :=
  (createBillWithItems_rollback dbScenario
    { studentId := 1, departmentId := 1, name := "B", dueDate := none,
      note := none,
      items := [{ billItemId := 99, amount := none, quantity := none,
                  discount := none }] }).2 rfl rfl
    ⟨{ billItemId := 99, amount := none, quantity := none, discount := none },
     List.mem_singleton_self _, rfl⟩

/-- Filtering for the department after filtering it away gives nothing. -/
theorem filter_bne_then_beq (i : Nat) (l : List BillItemRow) :
    (l.filter (fun b => b.departmentId != i)).filter
      (fun b => b.departmentId == i) = [] := by
  induction l with
  | nil => rfl
  | cons x xs ih =>
    by_cases hx : x.departmentId = i
    · simp [List.filter_cons, hx, ih]
    · simp [List.filter_cons, hx, ih]

/-- A successful re-insert loop appends exactly the submitted items (all
tagged with the department id) to the bill_items table. -/
theorem addBillItemsLoop_spec (i : Nat) :
    ∀ (items : List NewBillItem) (db db₂ : DB),
      addBillItemsLoop i items db = .ok db₂ →
      db₂.billItems.filter (fun b => b.departmentId != i) =
        db.billItems.filter (fun b => b.departmentId != i) ∧
      (db₂.billItems.filter (fun b => b.departmentId == i)).map billItemFields =
        (db.billItems.filter (fun b => b.departmentId == i)).map billItemFields
          ++ items.map newBillItemFields := by
  intro items
  induction items with
  | nil =>
    intro db db₂ h
    simp only [addBillItemsLoop] at h
    injection h with h
    subst h
    simp
  | cons item rest ih =>
    intro db db₂ h
    simp only [addBillItemsLoop] at h
    split at h
    · simp at h
    · next r heq =>
      simp only [addBillItem, tableExists_bill_items, Bool.not_true,
        Bool.false_eq_true, if_false] at heq
      split at heq
      · simp at heq
      · injection heq with heq
        subst heq
        obtain ⟨hf1, hf2⟩ := ih _ _ h
        constructor
        · rw [hf1]
          simp [List.filter_append]
        · rw [hf2]
          simp [List.filter_append, List.map_append, List.append_assoc]
          rfl

/-- C7: when `updateDepartment` is given a billItems array and succeeds,
the stored bill_items rows for that department afterwards are exactly the
supplied items (full replace: the previous rows for the department are
deleted, the supplied ones inserted), while rows of other departments are
untouched; any failure rolls the whole transaction back, returning the
store unchanged; and when no billItems array is supplied, the bill_items
table is left exactly as it was. -/
theorem updateDepartment_replaces_billItems (db : DB)
    (dep : UpdateDepartmentPayload) :
    (∀ e db₂, updateDepartment db dep = (.error e, db₂) → db₂ = db) ∧
    (∀ db₂, dep.billItems = none → updateDepartment db dep = (.ok (), db₂) →
       db₂.billItems = db.billItems) ∧
    (∀ i items db₂, dep.id = some i → dep.billItems = some items →
       updateDepartment db dep = (.ok (), db₂) →
       db₂.billItems.filter (fun b => b.departmentId != i) =
         db.billItems.filter (fun b => b.departmentId != i) ∧
       (db₂.billItems.filter (fun b => b.departmentId == i)).map billItemFields =
         items.map newBillItemFields) := by
  refine ⟨?_, ?_, ?_⟩
  · intro e db₂ h
    simp only [updateDepartment] at h
    split at h
    · rw [Prod.mk.injEq] at h; exact h.2.symm
    · split at h
      · rw [Prod.mk.injEq] at h; exact h.2.symm
      · split at h
        · rw [Prod.mk.injEq] at h; exact h.2.symm
        · split at h
          · rw [Prod.mk.injEq] at h; exact absurd h.1 (by simp)
          · split at h
            · rw [Prod.mk.injEq] at h; exact h.2.symm
            · split at h
              · rw [Prod.mk.injEq] at h; exact h.2.symm
              · rw [Prod.mk.injEq] at h; exact absurd h.1 (by simp)
  · intro db₂ hnone h
    simp only [updateDepartment] at h
    split at h
    · simp at h
    · split at h
      · simp at h
      · split at h
        · simp at h
        · split at h
          · rw [Prod.mk.injEq] at h
            rw [← h.2]
          · next items heq =>
            rw [hnone] at heq
            simp at heq
  · intro i items db₂ hid hsome h
    simp only [updateDepartment, hid] at h
    split at h
    · simp at h
    · split at h
      · simp at h
      · split at h
        · next heq =>
          rw [hsome] at heq
          simp at heq
        · next items₂ heq =>
          rw [hsome] at heq
          injection heq with heq
          subst heq
          simp only [tableExists_bill_items, Bool.not_true, Bool.false_eq_true,
            if_false] at h
          split at h
          · simp at h
          · next db₃ heq₂ =>
            rw [Prod.mk.injEq] at h
            rw [← h.2]
            obtain ⟨hf1, hf2⟩ := addBillItemsLoop_spec i items _ db₃ heq₂
            constructor
            · rw [hf1]
              simp [List.filter_filter]
            · rw [hf2]
              simp [filter_bne_then_beq]

/-- Closed instance of C7 on the scenario store: replacing the two bill
items of department 1 by the single Uniform item leaves other rows alone
and makes the department rows exactly the supplied set. -/
theorem updateDepartment_replaces_billItems_witness :
    ((updateDepartment dbScenario depPayloadW).2.billItems.filter
        (fun b => b.departmentId != 1) =
      dbScenario.billItems.filter (fun b => b.departmentId != 1)) ∧
    (((updateDepartment dbScenario depPayloadW).2.billItems.filter
        (fun b => b.departmentId == 1)).map billItemFields =
      [uniformItem].map newBillItemFields) :=
  (updateDepartment_replaces_billItems dbScenario depPayloadW).2.2 1 [uniformItem]
    (updateDepartment dbScenario depPayloadW).2 rfl rfl rfl

end MecConnect
